import Mathlib

/-!
Shallow embedding of the LightStack Home Assistant integration
(`custom_components/lightstack`): the coordinator's state projector
(`coordinator.py`) and the WebSocket client's command correlator,
`send_command` path and reconnection supervisor (`websocket.py`).

Python values that flow through the untyped payload dictionaries are
modelled by `PyVal`; a raised Python exception is modelled by the
`Except PyErr` error channel of the translated functions.
-/

/-- A Python value as it appears in decoded JSON payloads: `None`, booleans,
integers, strings, lists and string-keyed dictionaries. -/
inductive PyVal where
  | none
  | bool (b : Bool)
  | int (n : Int)
  | str (s : String)
  | list (xs : List PyVal)
  | dict (entries : List (String × PyVal))
deriving Repr

mutual

/-- Decidable structural equality on `PyVal` (models Python `==` on the
JSON-shaped values the client manipulates; the numeric `True == 1`
coercion is not modelled, no claim compares booleans with integers). -/
def PyVal.decEq : (a b : PyVal) → Decidable (a = b)
  | .none, .none => isTrue rfl
  | .bool a, .bool b =>
    if h : a = b then isTrue (h ▸ rfl) else isFalse (fun he => h (PyVal.bool.inj he))
  | .int a, .int b =>
    if h : a = b then isTrue (h ▸ rfl) else isFalse (fun he => h (PyVal.int.inj he))
  | .str a, .str b =>
    if h : a = b then isTrue (h ▸ rfl) else isFalse (fun he => h (PyVal.str.inj he))
  | .list xs, .list ys =>
    match PyVal.decEqList xs ys with
    | isTrue h => isTrue (h ▸ rfl)
    | isFalse h => isFalse (fun he => h (PyVal.list.inj he))
  | .dict xs, .dict ys =>
    match PyVal.decEqDict xs ys with
    | isTrue h => isTrue (h ▸ rfl)
    | isFalse h => isFalse (fun he => h (PyVal.dict.inj he))
  | .none, .bool _ => isFalse (fun h => PyVal.noConfusion h)
  | .none, .int _ => isFalse (fun h => PyVal.noConfusion h)
  | .none, .str _ => isFalse (fun h => PyVal.noConfusion h)
  | .none, .list _ => isFalse (fun h => PyVal.noConfusion h)
  | .none, .dict _ => isFalse (fun h => PyVal.noConfusion h)
  | .bool _, .none => isFalse (fun h => PyVal.noConfusion h)
  | .bool _, .int _ => isFalse (fun h => PyVal.noConfusion h)
  | .bool _, .str _ => isFalse (fun h => PyVal.noConfusion h)
  | .bool _, .list _ => isFalse (fun h => PyVal.noConfusion h)
  | .bool _, .dict _ => isFalse (fun h => PyVal.noConfusion h)
  | .int _, .none => isFalse (fun h => PyVal.noConfusion h)
  | .int _, .bool _ => isFalse (fun h => PyVal.noConfusion h)
  | .int _, .str _ => isFalse (fun h => PyVal.noConfusion h)
  | .int _, .list _ => isFalse (fun h => PyVal.noConfusion h)
  | .int _, .dict _ => isFalse (fun h => PyVal.noConfusion h)
  | .str _, .none => isFalse (fun h => PyVal.noConfusion h)
  | .str _, .bool _ => isFalse (fun h => PyVal.noConfusion h)
  | .str _, .int _ => isFalse (fun h => PyVal.noConfusion h)
  | .str _, .list _ => isFalse (fun h => PyVal.noConfusion h)
  | .str _, .dict _ => isFalse (fun h => PyVal.noConfusion h)
  | .list _, .none => isFalse (fun h => PyVal.noConfusion h)
  | .list _, .bool _ => isFalse (fun h => PyVal.noConfusion h)
  | .list _, .int _ => isFalse (fun h => PyVal.noConfusion h)
  | .list _, .str _ => isFalse (fun h => PyVal.noConfusion h)
  | .list _, .dict _ => isFalse (fun h => PyVal.noConfusion h)
  | .dict _, .none => isFalse (fun h => PyVal.noConfusion h)
  | .dict _, .bool _ => isFalse (fun h => PyVal.noConfusion h)
  | .dict _, .int _ => isFalse (fun h => PyVal.noConfusion h)
  | .dict _, .str _ => isFalse (fun h => PyVal.noConfusion h)
  | .dict _, .list _ => isFalse (fun h => PyVal.noConfusion h)

/-- Decidable equality on lists of `PyVal`. -/
def PyVal.decEqList : (xs ys : List PyVal) → Decidable (xs = ys)
  | [], [] => isTrue rfl
  | [], _ :: _ => isFalse (fun h => List.noConfusion h)
  | _ :: _, [] => isFalse (fun h => List.noConfusion h)
  | x :: xs, y :: ys =>
    match PyVal.decEq x y with
    | isTrue h1 =>
      match PyVal.decEqList xs ys with
      | isTrue h2 => isTrue (by rw [h1, h2])
      | isFalse h2 => isFalse (fun he => h2 (List.cons.inj he).2)
    | isFalse h1 => isFalse (fun he => h1 (List.cons.inj he).1)

/-- Decidable equality on dictionary entry lists. -/
def PyVal.decEqDict : (xs ys : List (String × PyVal)) → Decidable (xs = ys)
  | [], [] => isTrue rfl
  | [], _ :: _ => isFalse (fun h => List.noConfusion h)
  | _ :: _, [] => isFalse (fun h => List.noConfusion h)
  | (k1, v1) :: xs, (k2, v2) :: ys =>
    if hk : k1 = k2 then
      match PyVal.decEq v1 v2 with
      | isTrue h1 =>
        match PyVal.decEqDict xs ys with
        | isTrue h2 => isTrue (by rw [hk, h1, h2])
        | isFalse h2 => isFalse (fun he => h2 (List.cons.inj he).2)
      | isFalse h1 =>
        isFalse (fun he => h1 (congrArg Prod.snd (List.cons.inj he).1))
    else isFalse (fun he => hk (congrArg Prod.fst (List.cons.inj he).1))

end

instance : DecidableEq PyVal := PyVal.decEq

/-- A Python dictionary payload: association list with string keys
(Python dict keys are unique; all dictionaries built by the client have
string keys). -/
abbrev PyDict := List (String × PyVal)

/-- The Python exceptions the translated code can raise on ill-typed input. -/
inductive PyErr where
  | typeError
  | attributeError
deriving DecidableEq, Repr

/-- Python truthiness of a `PyVal` (`bool(v)`): `None`, `False`, `0`, `""`,
`[]` and `{}` are falsy, everything else truthy. -/
def PyVal.truthy : PyVal → Bool
  | .none => false
  | .bool b => b
  | .int n => n != 0
  | .str s => !s.isEmpty
  | .list xs => !xs.isEmpty
  | .dict es => !es.isEmpty

/-- Whether key `k` is present in the dictionary (`k in d`). -/
def hasKey (d : PyDict) (k : String) : Bool :=
  d.any (fun e => e.1 == k)

/-- `d.get(k, dflt)`: the stored value if the key is present, else `dflt`. -/
def dgetD (d : PyDict) (k : String) (dflt : PyVal) : PyVal :=
  match d.find? (fun e => e.1 == k) with
  | some e => e.2
  | Option.none => dflt

/-- `d.get(k)`: the stored value if the key is present, else `None`. -/
def dget (d : PyDict) (k : String) : PyVal :=
  dgetD d k .none

instance {ε α : Type} [DecidableEq ε] [DecidableEq α] : DecidableEq (Except ε α) :=
  fun a b =>
    match a, b with
    | .ok x, .ok y =>
      if h : x = y then isTrue (by rw [h])
      else isFalse (fun he => h (Except.ok.inj he))
    | .error x, .error y =>
      if h : x = y then isTrue (by rw [h])
      else isFalse (fun he => h (Except.error.inj he))
    | .ok _, .error _ => isFalse (fun he => Except.noConfusion he)
    | .error _, .ok _ => isFalse (fun he => Except.noConfusion he)

/-- Python `field_name in v` for the values the `config` slot can hold:
key membership on dicts, substring test on strings, element membership on
lists; `in` on `None`, booleans or integers raises `TypeError`. -/
def pyContains (v : PyVal) (k : String) : Except PyErr Bool :=
  match v with
  | .dict es => .ok (hasKey es k)
  | .str s => .ok (decide (k.data <:+: s.data))
  | .list xs => .ok (xs.any (fun x => x == .str k))
  | _ => .error .typeError

/-!
## `coordinator.py`: `LightStackAlert`

Python dataclass fields are unchecked, so each field holds an arbitrary
`PyVal` — exactly the value `from_dict` stored there.
-/

structure LightStackAlert where
  alert_key : PyVal
  is_active : PyVal
  effective_priority : PyVal
  priority : PyVal
  last_triggered_at : PyVal
  name : PyVal
  description : PyVal
  default_priority : PyVal
  led_color : PyVal
  led_effect : PyVal
  led_brightness : PyVal
  led_duration : PyVal
deriving DecidableEq, Repr

/-- The `get_field` closure inside `LightStackAlert.from_dict`: if the
config is truthy and contains the field, read it from the config (the
`.get` call raises `AttributeError` when that truthy config is not a
dict), else read it from the top-level data. -/
def get_field (data : PyDict) (config : PyVal) (field_name : String)
    (dflt : PyVal) : Except PyErr PyVal :=
  if config.truthy then do
    let c ← pyContains config field_name
    if c then
      match config with
      | .dict es => .ok (dgetD es field_name dflt)
      | _ => .error .attributeError
    else .ok (dgetD data field_name dflt)
  else .ok (dgetD data field_name dflt)

/-- `LightStackAlert.from_dict`: flat identity/activity fields come from
the top-level record; the presentation fields go through `get_field`, so a
present truthy `config` sub-record wins for them. -/
def LightStackAlert.from_dict (data : PyDict) : Except PyErr LightStackAlert := do
  let name ← get_field data (dget data "config") "name" .none
  let description ← get_field data (dget data "config") "description" .none
  let default_priority ← get_field data (dget data "config") "default_priority" (.int 3)
  let led_color ← get_field data (dget data "config") "led_color" .none
  let led_effect ← get_field data (dget data "config") "led_effect" .none
  let led_brightness ← get_field data (dget data "config") "led_brightness" .none
  let led_duration ← get_field data (dget data "config") "led_duration" .none
  .ok { alert_key := dgetD data "alert_key" (.str "")
        is_active := dgetD data "is_active" (.bool false)
        effective_priority := dgetD data "effective_priority" (.int 3)
        priority := dget data "priority"
        last_triggered_at := dget data "last_triggered_at"
        name := name
        description := description
        default_priority := default_priority
        led_color := led_color
        led_effect := led_effect
        led_brightness := led_brightness
        led_duration := led_duration }

/-- `LightStackAlert.from_dict(v)` applied to a raw payload slot: Python
raises `AttributeError` (no `.get`) when `v` is not a dict. -/
def alertFromVal (v : PyVal) : Except PyErr LightStackAlert :=
  match v with
  | .dict es => LightStackAlert.from_dict es
  | _ => .error .attributeError

/-- The idiom `LightStackAlert.from_dict(v) if v else None` used for the
`current`, `current_alert`, `alert` and `new_current` payload slots. -/
def parseOptAlert (v : PyVal) : Except PyErr (Option LightStackAlert) :=
  if v.truthy then (alertFromVal v).map some
  else .ok Option.none

/-!
## `coordinator.py`: `LightStackState`
-/

structure LightStackState where
  is_all_clear : PyVal
  current_alert : Option LightStackAlert
  active_count : PyVal
  active_alerts : List LightStackAlert
deriving DecidableEq, Repr

/-- The list comprehension `[LightStackAlert.from_dict(a) for a in v]`:
iterating a list parses each element (non-dict elements raise in
`from_dict`); iterating a non-empty string yields characters and a
non-empty dict yields string keys, both of which raise `AttributeError`
inside `from_dict`; `None`, booleans and integers are not iterable
(`TypeError`). -/
def parseAlertList (v : PyVal) : Except PyErr (List LightStackAlert) :=
  match v with
  | .list xs => xs.mapM alertFromVal
  | .str s => if s.isEmpty then .ok [] else .error .attributeError
  | .dict es => if es.isEmpty then .ok [] else .error .attributeError
  | _ => .error .typeError

/-- `LightStackState.from_dict`. -/
def LightStackState.from_dict (data : PyDict) : Except PyErr LightStackState := do
  let current_alert ← parseOptAlert (dget data "current_alert")
  let active_alerts ← parseAlertList (dgetD data "active_alerts" (.list []))
  .ok { is_all_clear := dgetD data "is_all_clear" (.bool true)
        current_alert := current_alert
        active_count := dgetD data "active_count" (.int 0)
        active_alerts := active_alerts }

/-!
## `coordinator.py`: event handlers (`LightStackCoordinator`)

`self.data` is the coordinator's last published snapshot (`None` before
the first one), threaded explicitly; `async_set_updated_data` becomes the
returned snapshot.  Python exceptions raised while handling the payload
surface as `Except.error`.
-/

/-- Event kind strings from `const.py`. -/
def WS_EVENT_CURRENT_ALERT_CHANGED : String := "current_alert_changed"

def WS_EVENT_ALERT_TRIGGERED : String := "alert_triggered"

def WS_EVENT_ALERT_CLEARED : String := "alert_cleared"

def WS_EVENT_ALL_ALERTS_CLEARED : String := "all_alerts_cleared"

/-- `self.data.active_alerts if self.data else []`. -/
def activeAlertsOf : Option LightStackState → List LightStackAlert
  | some s => s.active_alerts
  | Option.none => []

/-- `self.data.current_alert if self.data else None`. -/
def currentAlertOf : Option LightStackState → Option LightStackAlert
  | some s => s.current_alert
  | Option.none => Option.none

/-- `v.get("alert_key") if v else None` as evaluated eagerly by the entry
debug log of `_handle_alert_triggered`: raises `AttributeError` when `v`
is truthy but not a dict. -/
def probeGetAttr (v : PyVal) : Except PyErr Unit :=
  if v.truthy then
    match v with
    | .dict _ => .ok ()
    | _ => .error .attributeError
  else .ok ()

/-- `_handle_current_alert_changed`: current alert and the scalar fields
come from the payload; the active list is carried over. -/
def handle_current_alert_changed (data : Option LightStackState)
    (event_data : PyDict) : Except PyErr LightStackState := do
  let current_alert ← parseOptAlert (dget event_data "current")
  .ok { is_all_clear := dgetD event_data "is_all_clear" (.bool true)
        current_alert := current_alert
        active_count := dgetD event_data "active_count" (.int 0)
        active_alerts := activeAlertsOf data }

/-- The upsert in `_handle_alert_triggered`: replace the first entry with
the same `alert_key` (via `next(...enumerate...)`), else append. -/
def upsertAlert (active_alerts : List LightStackAlert)
    (t : LightStackAlert) : List LightStackAlert :=
  match active_alerts.findIdx? (fun a => a.alert_key == t.alert_key) with
  | some i => active_alerts.set i t
  | Option.none => active_alerts ++ [t]

/-- The active list after `_handle_alert_triggered`'s upsert: unchanged
when the payload carried no (truthy) alert. -/
def newActiveList (data : Option LightStackState) :
    Option LightStackAlert → List LightStackAlert
  | some t => upsertAlert (activeAlertsOf data) t
  | Option.none => activeAlertsOf data

/-- The new current alert of `_handle_alert_triggered`: parsed from the
payload when `current_changed` is truthy, else carried over from the
previous snapshot. -/
def parseNewCurrent (data : Option LightStackState) (event_data : PyDict) :
    Except PyErr (Option LightStackAlert) :=
  if (dgetD event_data "current_changed" (.bool false)).truthy then
    parseOptAlert (dget event_data "new_current")
  else .ok (currentAlertOf data)

/-- `_handle_alert_triggered`. -/
def handle_alert_triggered (data : Option LightStackState)
    (event_data : PyDict) : Except PyErr LightStackState := do
  let _ ← probeGetAttr (dget event_data "alert")
  let _ ← probeGetAttr (dget event_data "new_current")
  let triggered_alert ← parseOptAlert (dget event_data "alert")
  let new_current ← parseNewCurrent data event_data
  .ok { is_all_clear := .bool false
        current_alert := new_current
        active_count := .int (newActiveList data triggered_alert).length
        active_alerts := newActiveList data triggered_alert }

/-- The active list after `_handle_alert_cleared`'s removal: entries with
the cleared key are dropped, but only when the key is truthy (a falsy
key, e.g. an absent or empty one, removes nothing). -/
def clearedList (data : Option LightStackState) (cleared_key : PyVal) :
    List LightStackAlert :=
  if cleared_key.truthy then
    (activeAlertsOf data).filter (fun a => !(a.alert_key == cleared_key))
  else activeAlertsOf data

/-- `alert_data.get("alert_key") if alert_data else None`: the key of
the cleared alert (a truthy non-dict slot raises on `.get`). -/
def parseClearedKey (v : PyVal) : Except PyErr PyVal :=
  if v.truthy then
    match v with
    | .dict es => Except.ok (dget es "alert_key")
    | _ => Except.error PyErr.attributeError
  else .ok PyVal.none

/-- `_handle_alert_cleared`. -/
def handle_alert_cleared (data : Option LightStackState)
    (event_data : PyDict) : Except PyErr LightStackState := do
  let new_current ← parseOptAlert (dget event_data "new_current")
  let cleared_key ← parseClearedKey (dget event_data "alert")
  .ok { is_all_clear := .bool new_current.isNone
        current_alert := new_current
        active_count := .int (clearedList data cleared_key).length
        active_alerts := clearedList data cleared_key }

/-- `_handle_all_alerts_cleared`: reset to the canonical empty snapshot. -/
def handle_all_alerts_cleared (_data : Option LightStackState)
    (_event_data : PyDict) : Except PyErr LightStackState :=
  .ok { is_all_clear := .bool true, current_alert := Option.none,
        active_count := .int 0, active_alerts := [] }

/-- `_handle_event`: string dispatch on the event kind; `disconnected`
only logs, every unknown kind falls through with no state change. -/
def handle_event (data : Option LightStackState) (event_type : String)
    (event_data : PyDict) : Except PyErr (Option LightStackState) :=
  if event_type == WS_EVENT_CURRENT_ALERT_CHANGED then
    (handle_current_alert_changed data event_data).map some
  else if event_type == WS_EVENT_ALERT_TRIGGERED then
    (handle_alert_triggered data event_data).map some
  else if event_type == WS_EVENT_ALERT_CLEARED then
    (handle_alert_cleared data event_data).map some
  else if event_type == WS_EVENT_ALL_ALERTS_CLEARED then
    (handle_all_alerts_cleared data event_data).map some
  else if event_type == "reconnected" then
    match dgetD event_data "state" (.dict []) with
    | .dict es => (LightStackState.from_dict es).map some
    | _ => .error .attributeError
  else if event_type == "disconnected" then
    .ok data
  else
    .ok data

/-!
## `websocket.py`: command correlator (`LightStackWebSocket`)

`self._pending_commands` maps a command id (a uuid string, stored here as
a `PyVal` because inbound `command_id` values are compared against it
with dict membership) to an `asyncio.Future`.  Futures live in an arena
(`futures`) so that a caller's handle on a future survives its removal
from the pending map, exactly as a Python reference does.
-/

/-- The lifecycle of one `asyncio.Future` used as a command waiter. -/
inductive FutureState where
  | pending
  | resolved (v : PyVal)
  | failed (code : PyVal) (message : PyVal)
  | cancelled
deriving DecidableEq, Repr

/-- The correlator's shared state: the pending-command dict and the future
arena (`pending` holds indices into `futures`). -/
structure Correlator where
  pending : List (PyVal × Nat)
  futures : List FutureState
deriving DecidableEq, Repr

/-- Dict lookup in the pending map (`command_id in self._pending_commands`
followed by indexing). -/
def pyLookup (l : List (PyVal × Nat)) (k : PyVal) : Option Nat :=
  (l.find? (fun e => e.1 == k)).map (fun e => e.2)

/-- `self._pending_commands.pop(command_id)` (and the `None`-defaulted
`pop` on timeout): remove the key's entry. -/
def pyRemove (l : List (PyVal × Nat)) (k : PyVal) : List (PyVal × Nat) :=
  l.filter (fun e => !(e.1 == k))

/-- `if not future.done(): future.set_result(v)` on arena slot `i`. -/
def resolveFuture (fs : List FutureState) (i : Nat) (v : PyVal) :
    List FutureState :=
  match fs.get? i with
  | some .pending => fs.set i (.resolved v)
  | _ => fs

/-- `if not future.done(): future.set_exception(LightStackCommandError(code, message))`
on arena slot `i`. -/
def failFuture (fs : List FutureState) (i : Nat) (code message : PyVal) :
    List FutureState :=
  match fs.get? i with
  | some .pending => fs.set i (.failed code message)
  | _ => fs

/-- Inbound envelope kind strings from `const.py`. -/
def WS_EVENT_COMMAND_RESULT : String := "command_result"

def WS_EVENT_ERROR : String := "error"

/-- `_handle_message`: a `command_result` envelope whose `command_id` is
truthy and pending pops the entry and resolves the future **with the
whole `data` mapping of the envelope**; an `error` envelope likewise pops
and fails the future with `code`/`message` (unmatched errors are only
logged); every other envelope goes to the listeners and leaves the
correlator untouched.  A non-dict `data` slot raises on `.get`. -/
def ws_handle_message (c : Correlator) (msg : PyDict) :
    Except PyErr Correlator := do
  let event_data ←
    match dgetD msg "data" (.dict []) with
    | .dict es => Except.ok es
    | _ => Except.error PyErr.attributeError
  if dgetD msg "type" (.str "") == .str WS_EVENT_COMMAND_RESULT then
    if (dget event_data "command_id").truthy then
      match pyLookup c.pending (dget event_data "command_id") with
      | some i =>
        .ok { pending := pyRemove c.pending (dget event_data "command_id")
              futures := resolveFuture c.futures i (.dict event_data) }
      | Option.none => .ok c
    else .ok c
  else if dgetD msg "type" (.str "") == .str WS_EVENT_ERROR then
    if (dget event_data "command_id").truthy then
      match pyLookup c.pending (dget event_data "command_id") with
      | some i =>
        .ok { pending := pyRemove c.pending (dget event_data "command_id")
              futures := failFuture c.futures i
                (dgetD event_data "code" (.str "UNKNOWN"))
                (dgetD event_data "message" (.str "Unknown error")) }
      | Option.none => .ok c
    else .ok c
  else
    .ok c

/-!
## `websocket.py`: `send_command`

`send_command` is an `async` function; its suspension on
`asyncio.wait_for(future, timeout)` is modelled by an environment-chosen
`AwaitOutcome`: the future was resolved, failed (its stored exception is
re-raised), or the timeout elapsed first.
-/

/-- What the await on the command future observes. -/
inductive AwaitOutcome where
  | timeout
  | value (v : PyVal)
  | raisedCommandError (code : PyVal) (message : PyVal)
deriving DecidableEq, Repr

/-- Exceptions `send_command` can raise. -/
inductive WSException where
  | connectionError (message : String)
  | commandError (code : String) (message : String)
deriving DecidableEq, Repr

/-- Everything observable about one `send_command` run: its return value
or exception, the pending map at the moment the frame was transmitted
(`none` when no frame was sent), and the correlator state the call itself
leaves behind. -/
structure SendResult where
  result : Except WSException (Option PyVal)
  pendingAtSend : Option (List (PyVal × Nat))
  pendingAfter : List (PyVal × Nat)
  futuresAfter : List FutureState
deriving DecidableEq, Repr

/-- `self._pending_commands[command_id] = future`: dict assignment
(replace if the key exists, else insert). -/
def pyDictSet (l : List (PyVal × Nat)) (k : PyVal) (v : Nat) :
    List (PyVal × Nat) :=
  if l.any (fun e => e.1 == k) then
    l.map (fun e => if e.1 == k then (k, v) else e)
  else l ++ [(k, v)]

/-- `send_command(command_type, data, wait_for_result, timeout)`:
raises `LightStackConnectionError` at once when the link is down; when a
result is awaited, registers the fresh future in the pending map
**before** transmitting; a timeout pops the entry and raises a `TIMEOUT`
`LightStackCommandError`. -/
def send_command (c : Correlator) (connected : Bool) (command_type : String)
    (command_id : String) (wait_for_result : Bool)
    (await_outcome : AwaitOutcome) : SendResult :=
  if !connected then
    { result := .error (.connectionError "Not connected to LightStack")
      pendingAtSend := Option.none
      pendingAfter := c.pending
      futuresAfter := c.futures }
  else
    let c1 : Correlator :=
      if wait_for_result then
        { pending := pyDictSet c.pending (.str command_id) c.futures.length
          futures := c.futures ++ [.pending] }
      else c
    -- `await self._ws.send_json(message)` happens here, with `c1.pending`
    -- as the registered pending map
    if wait_for_result then
      match await_outcome with
      | .timeout =>
        { result := .error (.commandError "TIMEOUT"
            ("Command " ++ command_type ++ " timed out"))
          pendingAtSend := some c1.pending
          pendingAfter := pyRemove c1.pending (.str command_id)
          futuresAfter := c1.futures }
      | .value v =>
        { result := .ok (some v)
          pendingAtSend := some c1.pending
          pendingAfter := c1.pending
          futuresAfter := c1.futures }
      | .raisedCommandError code message =>
        { result := .error (.commandError
            (match code with | .str s => s | _ => "UNKNOWN")
            (match message with | .str s => s | _ => "Unknown error"))
          pendingAtSend := some c1.pending
          pendingAfter := c1.pending
          futuresAfter := c1.futures }
    else
      { result := .ok Option.none
        pendingAtSend := some c1.pending
        pendingAfter := c1.pending
        futuresAfter := c1.futures }

/-!
## Reconnection supervisor

The supervisor task the coordinator actually starts is
`LightStackCoordinator._maintain_connection`, a `while True:` loop whose
whole body (reconnect attempt and state update) sits inside a
`try/except Exception` — nothing a failed attempt does can end the loop.
(`LightStackWebSocket.maintain_connection` is not started anywhere.)
One loop iteration is driven by what the environment reports: whether
the websocket is currently `connected`, and what `reconnect()` returned
(`None` on failure, the fresh handshake state payload on success).
-/

/-- What one iteration of `_maintain_connection` observes after its
sleep. -/
structure SupervisorObs where
  connected : Bool
  reconnect_result : Option PyDict
deriving Repr

/-- One iteration of the coordinator's `_maintain_connection` body: when
disconnected it attempts a reconnect and, on success, publishes the
re-parsed snapshot; every exception (including one raised by
`LightStackState.from_dict`) is caught and logged, leaving the snapshot
as it was. -/
def maintain_step (obs : SupervisorObs) (data : Option LightStackState) :
    Option LightStackState :=
  if obs.connected then data
  else
    match obs.reconnect_result with
    | Option.none => data
    | some d =>
      match LightStackState.from_dict d with
      | .ok s => some s
      | .error _ => data

/-- The first `n` iterations of the `while True:` supervisor loop under
the environment trace `env`. -/
def maintain_run (env : Nat → SupervisorObs) :
    Nat → Option LightStackState → Option LightStackState
  | 0, data => data
  | n + 1, data => maintain_run env n (maintain_step (env n) data)

/-- How many reconnect attempts the supervisor has made during the first
`n` iterations: one per iteration that starts disconnected. -/
def attemptsMade (env : Nat → SupervisorObs) (n : Nat) : Nat :=
  (List.range n).countP (fun i => !(env i).connected)

/-!
## Derived definitions used by the statements below
-/

/-- The spec's `AlertState` invariant: `is_all_clear` is the boolean
`True` exactly when no current alert is present, and `active_count` is
the length of `active_alerts`. -/
def stateInv (s : LightStackState) : Prop :=
  (s.is_all_clear = .bool true ↔ s.current_alert = Option.none) ∧
  s.active_count = .int s.active_alerts.length

instance (s : LightStackState) : Decidable (stateInv s) := by
  unfold stateInv; infer_instance

/-- The canonical empty / all-clear snapshot. -/
def emptySnapshot : LightStackState :=
  { is_all_clear := .bool true, current_alert := Option.none,
    active_count := .int 0, active_alerts := [] }

/-- A concrete alert with the given key and every other field as
`LightStackAlert.from_dict` defaults it. -/
def mkAlert (k : PyVal) : LightStackAlert :=
  { alert_key := k, is_active := .bool false, effective_priority := .int 3,
    priority := .none, last_triggered_at := .none, name := .none,
    description := .none, default_priority := .int 3, led_color := .none,
    led_effect := .none, led_brightness := .none, led_duration := .none }

/-- The merge rule the code implements for a presentation field when the
`config` slot holds the dict `c`: the config wins whenever it is
non-empty and contains the field; the top-level record is consulted only
when the config is empty or lacks the field. -/
def mergedField (d c : PyDict) (f : String) (dflt : PyVal) : PyVal :=
  if !c.isEmpty && hasKey c f then dgetD c f dflt else dgetD d f dflt

/-- A well-typed alert record: its `config` slot, if present and truthy,
is a dict (this is what keeps `LightStackAlert.from_dict` from
raising). -/
def alertDictOK (d : PyDict) : Bool :=
  match dget d "config" with
  | .dict _ => true
  | v => !v.truthy

/-- A payload-list element that parses without raising: a dict that is
itself well-typed. -/
def alertValOK (v : PyVal) : Bool :=
  match v with
  | .dict es => alertDictOK es
  | _ => false

/-- A well-typed state record: the `current_alert` slot is a well-typed
dict or falsy, and the `active_alerts` slot is a list of well-typed
dicts (or a degenerate empty iterable). -/
def stateDictOK (d : PyDict) : Bool :=
  (match dget d "current_alert" with
   | .dict es => alertDictOK es
   | v => !v.truthy) &&
  (match dgetD d "active_alerts" (.list []) with
   | .list xs => xs.all alertValOK
   | .str s => s.isEmpty
   | .dict es => es.isEmpty
   | _ => false)

/-- `connect()` returns `event_data.get("state", {})` out of the
`connection_established` envelope data, which `async_setup` then parses
with `LightStackState.from_dict`. -/
def initial_snapshot (ce : PyDict) : Except PyErr LightStackState :=
  match dgetD ce "state" (.dict []) with
  | .dict es => LightStackState.from_dict es
  | _ => .error .attributeError

/-!
## Helper lemmas
-/

/-- Eliminating a successful `Except` bind. -/
theorem bind_ok_elim {ε α β : Type} {x : Except ε α} {f : α → Except ε β}
    {b : β} (h : (x >>= f) = .ok b) : ∃ a, x = .ok a ∧ f a = .ok b := by
  cases x with
  | ok a => exact ⟨a, rfl, h⟩
  | error e => exact Except.noConfusion h

/-!
## C9
-/

/-- C9: for every event kind other than `current_alert_changed`,
`alert_triggered`, `alert_cleared`, `all_alerts_cleared`, `reconnected`
and `disconnected`, and for every payload, `_handle_event` leaves the
snapshot unchanged and never raises. -/
theorem C9_unknown_kind_noop (data : Option LightStackState)
    (event_type : String) (event_data : PyDict)
    (h1 : event_type ≠ WS_EVENT_CURRENT_ALERT_CHANGED)
    (h2 : event_type ≠ WS_EVENT_ALERT_TRIGGERED)
    (h3 : event_type ≠ WS_EVENT_ALERT_CLEARED)
    (h4 : event_type ≠ WS_EVENT_ALL_ALERTS_CLEARED)
    (h5 : event_type ≠ "reconnected")
    (h6 : event_type ≠ "disconnected") :
    handle_event data event_type event_data = .ok data := by
  simp [handle_event, h1, h2, h3, h4, h5, h6]

/-- C9 witness at the concrete kind `"mystery"`. -/
theorem C9_unknown_kind_noop_witness :
    handle_event Option.none "mystery" [] = .ok Option.none :=
  C9_unknown_kind_noop Option.none "mystery" [] (by decide) (by decide)
    (by decide) (by decide) (by decide) (by decide)

/-!
## C8
-/

/-- C8: building the snapshot from a `connection_established` payload,
reducing `all_alerts_cleared`, then reducing a `reconnected` event whose
`state` field carries the original state payload restores the original
snapshot. -/
theorem C8_round_trip (ce q r sp : PyDict) (s0 : LightStackState)
    (hsp : dgetD ce "state" (.dict []) = .dict sp)
    (h0 : initial_snapshot ce = .ok s0)
    (hr : dgetD r "state" (.dict []) = .dict sp) :
    handle_event (some s0) WS_EVENT_ALL_ALERTS_CLEARED q =
      .ok (some emptySnapshot) ∧
    handle_event (some emptySnapshot) "reconnected" r = .ok (some s0) := by
  have hfd : LightStackState.from_dict sp = .ok s0 := by
    unfold initial_snapshot at h0
    rw [hsp] at h0
    exact h0
  constructor
  · rfl
  · show (match dgetD r "state" (.dict []) with
      | .dict es => (LightStackState.from_dict es).map some
      | _ => .error .attributeError) = .ok (some s0)
    rw [hr]
    show Except.map some (LightStackState.from_dict sp) = .ok (some s0)
    rw [hfd]
    rfl

/-- C8 witness at the empty state payload. -/
theorem C8_round_trip_witness :
    handle_event (some emptySnapshot) WS_EVENT_ALL_ALERTS_CLEARED [] =
      .ok (some emptySnapshot) ∧
    handle_event (some emptySnapshot) "reconnected" [("state", .dict [])] =
      .ok (some emptySnapshot) :=
  C8_round_trip [("state", .dict [])] [] [("state", .dict [])] []
    emptySnapshot (by decide) (by decide) (by decide)

/-!
## Except reduction lemmas
-/

@[simp] theorem pyOkBind {ε α β : Type} (a : α) (f : α → Except ε β) :
    (Except.ok a >>= f : Except ε β) = f a := rfl

@[simp] theorem pyErrorBind {ε α β : Type} (e : ε) (f : α → Except ε β) :
    (Except.error e >>= f : Except ε β) = .error e := rfl

@[simp] theorem pyMapOk {ε α β : Type} (g : α → β) (a : α) :
    (Except.map g (Except.ok a) : Except ε β) = .ok (g a) := rfl

@[simp] theorem pyMapError {ε α β : Type} (g : α → β) (e : ε) :
    (Except.map g (Except.error e) : Except ε β) = .error e := rfl

/-!
## Totality of the parsers on well-typed input
-/

/-- `get_field` cannot raise when the config slot is a dict or falsy. -/
theorem get_field_isOk (data : PyDict) (config : PyVal) (f : String)
    (dflt : PyVal)
    (h : (∃ es, config = PyVal.dict es) ∨ config.truthy = false) :
    ∃ v, get_field data config f dflt = .ok v := by
  rcases h with ⟨es, rfl⟩ | h
  · by_cases he : (PyVal.dict es).truthy = true
    · by_cases hk : hasKey es f = true
      · exact ⟨dgetD es f dflt, by simp [get_field, he, pyContains, hk]⟩
      · refine ⟨dgetD data f dflt, ?_⟩
        rw [Bool.not_eq_true] at hk
        simp [get_field, he, pyContains, hk]
    · rw [Bool.not_eq_true] at he
      exact ⟨dgetD data f dflt, by simp [get_field, he]⟩
  · exact ⟨dgetD data f dflt, by simp [get_field, h]⟩

/-- `LightStackAlert.from_dict` cannot raise on a well-typed record. -/
theorem alert_from_dict_isOk (d : PyDict) (h : alertDictOK d = true) :
    ∃ a, LightStackAlert.from_dict d = .ok a := by
  have hc : (∃ es, dget d "config" = PyVal.dict es) ∨
      (dget d "config").truthy = false := by
    unfold alertDictOK at h
    match hv : dget d "config" with
    | .dict es => exact Or.inl ⟨es, rfl⟩
    | .none => exact Or.inr rfl
    | .bool b => rw [hv] at h; exact Or.inr (by simpa using h)
    | .int n => rw [hv] at h; exact Or.inr (by simpa using h)
    | .str s => rw [hv] at h; exact Or.inr (by simpa using h)
    | .list xs => rw [hv] at h; exact Or.inr (by simpa using h)
  obtain ⟨v1, h1⟩ := get_field_isOk d (dget d "config") "name" .none hc
  obtain ⟨v2, h2⟩ := get_field_isOk d (dget d "config") "description" .none hc
  obtain ⟨v3, h3⟩ := get_field_isOk d (dget d "config") "default_priority" (.int 3) hc
  obtain ⟨v4, h4⟩ := get_field_isOk d (dget d "config") "led_color" .none hc
  obtain ⟨v5, h5⟩ := get_field_isOk d (dget d "config") "led_effect" .none hc
  obtain ⟨v6, h6⟩ := get_field_isOk d (dget d "config") "led_brightness" .none hc
  obtain ⟨v7, h7⟩ := get_field_isOk d (dget d "config") "led_duration" .none hc
  have hok : LightStackAlert.from_dict d =
      .ok { alert_key := dgetD d "alert_key" (.str "")
            is_active := dgetD d "is_active" (.bool false)
            effective_priority := dgetD d "effective_priority" (.int 3)
            priority := dget d "priority"
            last_triggered_at := dget d "last_triggered_at"
            name := v1, description := v2, default_priority := v3
            led_color := v4, led_effect := v5, led_brightness := v6
            led_duration := v7 } := by
    unfold LightStackAlert.from_dict
    simp only [h1, h2, h3, h4, h5, h6, h7, pyOkBind]
  exact ⟨_, hok⟩

/-- Parsing a list of well-typed alert dicts cannot raise. -/
theorem parse_list_isOk (xs : List PyVal) (h : xs.all alertValOK = true) :
    ∃ l, xs.mapM alertFromVal = (.ok l : Except PyErr (List LightStackAlert)) := by
  induction xs with
  | nil => exact ⟨[], rfl⟩
  | cons x xs ih =>
    rw [List.all_cons, Bool.and_eq_true] at h
    obtain ⟨hx, hxs⟩ := h
    obtain ⟨l, hl⟩ := ih hxs
    cases x with
    | dict es =>
      simp only [alertValOK] at hx
      obtain ⟨a, ha⟩ := alert_from_dict_isOk es hx
      refine ⟨a :: l, ?_⟩
      rw [List.mapM_cons]
      have hloop : List.mapM.loop alertFromVal xs [] = List.mapM alertFromVal xs := rfl
      simp only [alertFromVal, ha, pyOkBind]
      try rw [hloop]
      rw [hl]
      rfl
    | none => simp [alertValOK] at hx
    | bool b => simp [alertValOK] at hx
    | int n => simp [alertValOK] at hx
    | str s => simp [alertValOK] at hx
    | list ys => simp [alertValOK] at hx

/-- `LightStackState.from_dict` cannot raise on a well-typed record. -/
theorem state_from_dict_isOk (d : PyDict) (h : stateDictOK d = true) :
    ∃ s, LightStackState.from_dict d = .ok s := by
  unfold stateDictOK at h
  rw [Bool.and_eq_true] at h
  obtain ⟨h1, h2⟩ := h
  have hca : ∃ o, parseOptAlert (dget d "current_alert") =
      (.ok o : Except PyErr (Option LightStackAlert)) := by
    match hv : dget d "current_alert" with
    | .dict es =>
      rw [hv] at h1
      by_cases ht : (PyVal.dict es).truthy = true
      · obtain ⟨a, ha⟩ := alert_from_dict_isOk es h1
        exact ⟨some a, by simp [parseOptAlert, ht, alertFromVal, ha]⟩
      · exact ⟨Option.none, by simp [parseOptAlert, ht]⟩
    | .none => exact ⟨Option.none, rfl⟩
    | .bool b =>
      rw [hv] at h1
      refine ⟨Option.none, ?_⟩
      have ht : (PyVal.bool b).truthy = false := by simpa using h1
      simp [parseOptAlert, ht]
    | .int n =>
      rw [hv] at h1
      refine ⟨Option.none, ?_⟩
      have ht : (PyVal.int n).truthy = false := by simpa using h1
      simp [parseOptAlert, ht]
    | .str s =>
      rw [hv] at h1
      refine ⟨Option.none, ?_⟩
      have ht : (PyVal.str s).truthy = false := by simpa using h1
      simp [parseOptAlert, ht]
    | .list xs =>
      rw [hv] at h1
      refine ⟨Option.none, ?_⟩
      have ht : (PyVal.list xs).truthy = false := by simpa using h1
      simp [parseOptAlert, ht]
  obtain ⟨o, ho⟩ := hca
  have hpl : ∃ l, parseAlertList (dgetD d "active_alerts" (.list [])) =
      (.ok l : Except PyErr (List LightStackAlert)) := by
    match hv : dgetD d "active_alerts" (.list []) with
    | .list xs =>
      rw [hv] at h2
      obtain ⟨l, hl⟩ := parse_list_isOk xs h2
      exact ⟨l, by simpa [parseAlertList] using hl⟩
    | .str s =>
      rw [hv] at h2
      have h2' : s.isEmpty = true := h2
      exact ⟨[], by simp [parseAlertList, h2']⟩
    | .dict es =>
      rw [hv] at h2
      have h2' : es.isEmpty = true := h2
      exact ⟨[], by simp [parseAlertList, h2']⟩
    | .none => rw [hv] at h2; exact Bool.noConfusion h2
    | .bool b => rw [hv] at h2; exact Bool.noConfusion h2
    | .int n => rw [hv] at h2; exact Bool.noConfusion h2
  obtain ⟨l, hl⟩ := hpl
  have hok : LightStackState.from_dict d =
      .ok { is_all_clear := dgetD d "is_all_clear" (.bool true)
            current_alert := o
            active_count := dgetD d "active_count" (.int 0)
            active_alerts := l } := by
    unfold LightStackState.from_dict
    simp only [ho, hl, pyOkBind]
  exact ⟨_, hok⟩

/-- What a successful `LightStackAlert.from_dict` run stores in each
field: identity/activity fields verbatim from the top level, the
presentation fields through `get_field`. -/
theorem alert_from_dict_ok_fields (d : PyDict) (a : LightStackAlert)
    (h : LightStackAlert.from_dict d = .ok a) :
    a.alert_key = dgetD d "alert_key" (.str "") ∧
    a.is_active = dgetD d "is_active" (.bool false) ∧
    a.effective_priority = dgetD d "effective_priority" (.int 3) ∧
    a.priority = dget d "priority" ∧
    a.last_triggered_at = dget d "last_triggered_at" ∧
    get_field d (dget d "config") "name" .none = .ok a.name ∧
    get_field d (dget d "config") "description" .none = .ok a.description ∧
    get_field d (dget d "config") "default_priority" (.int 3) =
      .ok a.default_priority ∧
    get_field d (dget d "config") "led_color" .none = .ok a.led_color ∧
    get_field d (dget d "config") "led_effect" .none = .ok a.led_effect ∧
    get_field d (dget d "config") "led_brightness" .none = .ok a.led_brightness ∧
    get_field d (dget d "config") "led_duration" .none = .ok a.led_duration := by
  unfold LightStackAlert.from_dict at h
  obtain ⟨v1, h1, h⟩ := bind_ok_elim h
  obtain ⟨v2, h2, h⟩ := bind_ok_elim h
  obtain ⟨v3, h3, h⟩ := bind_ok_elim h
  obtain ⟨v4, h4, h⟩ := bind_ok_elim h
  obtain ⟨v5, h5, h⟩ := bind_ok_elim h
  obtain ⟨v6, h6, h⟩ := bind_ok_elim h
  obtain ⟨v7, h7, h⟩ := bind_ok_elim h
  have ha := Except.ok.inj h
  subst ha
  exact ⟨rfl, rfl, rfl, rfl, rfl, h1, h2, h3, h4, h5, h6, h7⟩

/-!
## C10
-/

/-- C10 counterexample: `LightStackState.from_dict` is not total over
arbitrary mappings — a present `active_alerts` slot holding the integer
`1` makes the Python list comprehension iterate a non-iterable and raise
`TypeError`. -/
theorem C10_counterexample :
    LightStackState.from_dict [("active_alerts", PyVal.int 1)] =
      .error PyErr.typeError := by decide

/-- C10 amended: snapshot and alert construction are total and
default-filling over mappings whose present fields are well-typed (the
`current_alert`/`config` slots are dicts or falsy, `active_alerts` is a
list of such dicts); the empty mapping yields the all-clear empty
snapshot, and `alert_key` defaults to the empty string when absent.  A
present ill-typed field (e.g. an integer `active_alerts`) raises. -/
theorem C10_amended_totality (d : PyDict) (hd : stateDictOK d = true)
    (d2 : PyDict) (a : LightStackAlert)
    (hk : hasKey d2 "alert_key" = false)
    (ha : LightStackAlert.from_dict d2 = .ok a) :
    (∃ s, LightStackState.from_dict d = .ok s) ∧
    LightStackState.from_dict [] = .ok emptySnapshot ∧
    a.alert_key = .str "" := by
  refine ⟨state_from_dict_isOk d hd, by decide, ?_⟩
  have hf := (alert_from_dict_ok_fields d2 a ha).1
  rw [hf]
  unfold dgetD
  have hnone : d2.find? (fun e => e.1 == "alert_key") = Option.none := by
    rw [List.find?_eq_none]
    intro e he
    unfold hasKey at hk
    exact (List.any_eq_false.mp hk) e he
  rw [hnone]

/-- C10 amended witness at the empty mappings. -/
theorem C10_amended_totality_witness :
    (∃ s, LightStackState.from_dict [] = .ok s) ∧
    LightStackState.from_dict [] = .ok emptySnapshot ∧
    (mkAlert (.str "")).alert_key = .str "" :=
  C10_amended_totality [] (by decide) [] (mkAlert (.str "")) (by decide)
    (by decide)

/-!
## C2
-/

/-- C2 counterexample: when a presentation field is carried by both the
top-level record and the nested config, the **config** value is stored —
not the top-level one as the claim states. -/
theorem C2_counterexample :
    (LightStackAlert.from_dict
      [("name", .str "top"), ("config", .dict [("name", .str "cfg")])]).map
      (fun a => a.name) = .ok (.str "cfg") ∧
    dget [("name", .str "top"), ("config", .dict [("name", .str "cfg")])]
      "name" = .str "top" ∧
    PyVal.str "cfg" ≠ PyVal.str "top" := by decide

/-- `get_field` on a dict-valued config slot implements `mergedField`. -/
theorem get_field_dict_eq (d c : PyDict) (f : String) (dflt : PyVal) :
    get_field d (.dict c) f dflt = .ok (mergedField d c f dflt) := by
  by_cases he : c.isEmpty
  · have ht : (PyVal.dict c).truthy = false := by
      simp [PyVal.truthy, he]
    simp [get_field, ht, mergedField, he]
  · have ht : (PyVal.dict c).truthy = true := by
      simp [PyVal.truthy, he]
    by_cases hk : hasKey c f = true
    · simp [get_field, ht, pyContains, hk, mergedField, he]
    · rw [Bool.not_eq_true] at hk
      simp [get_field, ht, pyContains, hk, mergedField, he]

/-- `get_field` on an absent or falsy config slot reads the top level,
i.e. behaves like `mergedField` with an empty config. -/
theorem get_field_falsy_eq (d : PyDict) (cfg : PyVal)
    (h : cfg.truthy = false) :
    ∀ (f : String) (dflt : PyVal),
      get_field d cfg f dflt = .ok (mergedField d [] f dflt) := by
  intro f dflt
  simp [get_field, h, mergedField]

/-- C2 amended: the identity/activity fields (`alert_key`, `is_active`,
`effective_priority`, `priority`, `last_triggered_at`) are read only from
the top-level record; for the presentation fields the nested config wins
whenever it is present, non-empty and contains the field, and the
top-level value is used only when the config is absent, falsy, empty or
lacks the field (when both carry such a field, the config value is
used).  The config slot is either a dict `c`, or absent/falsy — the
latter read through `mergedField` with the empty config `c = []`. -/
theorem C2_amended_merge (d : PyDict) (c : PyDict) (a : LightStackAlert)
    (hc : dget d "config" = PyVal.dict c ∨
      ((dget d "config").truthy = false ∧ c = []))
    (h : LightStackAlert.from_dict d = .ok a) :
    a.alert_key = dgetD d "alert_key" (.str "") ∧
    a.is_active = dgetD d "is_active" (.bool false) ∧
    a.effective_priority = dgetD d "effective_priority" (.int 3) ∧
    a.priority = dget d "priority" ∧
    a.last_triggered_at = dget d "last_triggered_at" ∧
    a.name = mergedField d c "name" .none ∧
    a.description = mergedField d c "description" .none ∧
    a.default_priority = mergedField d c "default_priority" (.int 3) ∧
    a.led_color = mergedField d c "led_color" .none ∧
    a.led_effect = mergedField d c "led_effect" .none ∧
    a.led_brightness = mergedField d c "led_brightness" .none ∧
    a.led_duration = mergedField d c "led_duration" .none := by
  obtain ⟨f1, f2, f3, f4, f5, g1, g2, g3, g4, g5, g6, g7⟩ :=
    alert_from_dict_ok_fields d a h
  rcases hc with hc | ⟨hc, rfl⟩
  · rw [hc, get_field_dict_eq] at g1 g2 g3 g4 g5 g6 g7
    exact ⟨f1, f2, f3, f4, f5,
      (Except.ok.inj g1).symm, (Except.ok.inj g2).symm,
      (Except.ok.inj g3).symm, (Except.ok.inj g4).symm,
      (Except.ok.inj g5).symm, (Except.ok.inj g6).symm,
      (Except.ok.inj g7).symm⟩
  · rw [get_field_falsy_eq d (dget d "config") hc] at g1 g2 g3 g4 g5 g6 g7
    exact ⟨f1, f2, f3, f4, f5,
      (Except.ok.inj g1).symm, (Except.ok.inj g2).symm,
      (Except.ok.inj g3).symm, (Except.ok.inj g4).symm,
      (Except.ok.inj g5).symm, (Except.ok.inj g6).symm,
      (Except.ok.inj g7).symm⟩

/-- C2 amended witness: once at a record whose `name` is carried by both
the top level and the config (the config value wins), and once at a flat
record with no config slot at all (the top-level value is used). -/
theorem C2_amended_merge_witness :
    ({ mkAlert (.str "k") with name := PyVal.str "cfg" } :
        LightStackAlert).name =
      mergedField
        [("alert_key", PyVal.str "k"), ("name", PyVal.str "top"),
         ("config", PyVal.dict [("name", PyVal.str "cfg")])]
        [("name", PyVal.str "cfg")] "name" PyVal.none ∧
    ({ mkAlert (.str "k") with name := PyVal.str "top" } :
        LightStackAlert).name =
      mergedField
        [("alert_key", PyVal.str "k"), ("name", PyVal.str "top")]
        [] "name" PyVal.none :=
  ⟨(C2_amended_merge
      [("alert_key", PyVal.str "k"), ("name", PyVal.str "top"),
       ("config", PyVal.dict [("name", PyVal.str "cfg")])]
      [("name", PyVal.str "cfg")]
      { mkAlert (.str "k") with name := PyVal.str "cfg" }
      (Or.inl (by decide)) (by decide)).2.2.2.2.2.1,
   (C2_amended_merge
      [("alert_key", PyVal.str "k"), ("name", PyVal.str "top")]
      []
      { mkAlert (.str "k") with name := PyVal.str "top" }
      (Or.inr ⟨by decide, rfl⟩) (by decide)).2.2.2.2.2.1⟩

/-!
## Handler characterizations
-/

/-- Eliminating `Except.map some` against a `.ok (some s)` result. -/
theorem map_some_ok_elim {ε α : Type} {x : Except ε α} {s : α}
    (h : Except.map some x = .ok (some s)) : x = .ok s := by
  cases x with
  | ok a => exact congrArg Except.ok (Option.some.inj (Except.ok.inj h))
  | error e => exact Except.noConfusion h

/-- What a successful `_handle_current_alert_changed` run produces. -/
theorem handle_current_alert_changed_ok (data : Option LightStackState)
    (p : PyDict) (s : LightStackState)
    (h : handle_current_alert_changed data p = .ok s) :
    ∃ ca, parseOptAlert (dget p "current") = .ok ca ∧
      s = { is_all_clear := dgetD p "is_all_clear" (.bool true)
            current_alert := ca
            active_count := dgetD p "active_count" (.int 0)
            active_alerts := activeAlertsOf data } := by
  unfold handle_current_alert_changed at h
  obtain ⟨ca, h1, h⟩ := bind_ok_elim h
  exact ⟨ca, h1, (Except.ok.inj h).symm⟩

/-- What a successful `_handle_alert_triggered` run produces. -/
theorem handle_alert_triggered_ok (data : Option LightStackState)
    (p : PyDict) (s : LightStackState)
    (h : handle_alert_triggered data p = .ok s) :
    ∃ t nc, parseOptAlert (dget p "alert") = .ok t ∧
      parseNewCurrent data p = .ok nc ∧
      s = { is_all_clear := .bool false
            current_alert := nc
            active_count := .int (newActiveList data t).length
            active_alerts := newActiveList data t } := by
  unfold handle_alert_triggered at h
  obtain ⟨u1, hp1, h⟩ := bind_ok_elim h
  obtain ⟨u2, hp2, h⟩ := bind_ok_elim h
  obtain ⟨t, h1, h⟩ := bind_ok_elim h
  obtain ⟨nc, h2, h⟩ := bind_ok_elim h
  exact ⟨t, nc, h1, h2, (Except.ok.inj h).symm⟩

/-- What a successful `_handle_alert_cleared` run produces. -/
theorem handle_alert_cleared_ok (data : Option LightStackState)
    (p : PyDict) (s : LightStackState)
    (h : handle_alert_cleared data p = .ok s) :
    ∃ nc ck, parseOptAlert (dget p "new_current") = .ok nc ∧
      parseClearedKey (dget p "alert") = .ok ck ∧
      s = { is_all_clear := .bool nc.isNone
            current_alert := nc
            active_count := .int (clearedList data ck).length
            active_alerts := clearedList data ck } := by
  unfold handle_alert_cleared at h
  obtain ⟨nc, h1, h⟩ := bind_ok_elim h
  obtain ⟨ck, h2, h⟩ := bind_ok_elim h
  exact ⟨nc, ck, h1, h2, (Except.ok.inj h).symm⟩

/-- What a successful `LightStackState.from_dict` run stores. -/
theorem state_from_dict_ok_fields (d : PyDict) (s : LightStackState)
    (h : LightStackState.from_dict d = .ok s) :
    s.is_all_clear = dgetD d "is_all_clear" (.bool true) ∧
    s.active_count = dgetD d "active_count" (.int 0) ∧
    parseOptAlert (dget d "current_alert") = .ok s.current_alert ∧
    parseAlertList (dgetD d "active_alerts" (.list [])) =
      .ok s.active_alerts := by
  unfold LightStackState.from_dict at h
  obtain ⟨ca, h1, h⟩ := bind_ok_elim h
  obtain ⟨l, h2, h⟩ := bind_ok_elim h
  have hs := (Except.ok.inj h).symm
  subst hs
  exact ⟨rfl, rfl, h1, h2⟩

/-!
## C1
-/

/-- C1 counterexample: a `current_alert_changed` event with an empty
payload on a snapshot holding one active alert yields a snapshot whose
`active_count` (copied from the payload, defaulting to 0) disagrees with
the length of the carried-over `active_alerts` list — the claimed
invariant does not hold for every payload. -/
theorem C1_counterexample :
    handle_event
      (some { is_all_clear := .bool false
              current_alert := some (mkAlert (.str "door"))
              active_count := .int 1
              active_alerts := [mkAlert (.str "door")] })
      WS_EVENT_CURRENT_ALERT_CHANGED [] =
      .ok (some { is_all_clear := .bool true, current_alert := Option.none
                  active_count := .int 0
                  active_alerts := [mkAlert (.str "door")] }) ∧
    ¬ stateInv { is_all_clear := .bool true, current_alert := Option.none
                 active_count := .int 0
                 active_alerts := [mkAlert (.str "door")] } := by
  constructor
  · decide
  · decide

/-- C1 amended: `all_alerts_cleared` and `alert_cleared` reductions
always establish both invariants; `alert_triggered` always establishes
the count invariant, and satisfies both invariants exactly when the
resulting current alert is present (`is_all_clear` is forced `False`);
`current_alert_changed` and `reconnected` copy `is_all_clear` and
`active_count` verbatim from the payload, so their result satisfies the
invariants exactly when the payload itself is consistent. -/
theorem C1_amended_invariants (data : Option LightStackState) (p : PyDict) :
    (∀ s, handle_event data WS_EVENT_ALL_ALERTS_CLEARED p = .ok (some s) →
       stateInv s) ∧
    (∀ s, handle_event data WS_EVENT_ALERT_CLEARED p = .ok (some s) →
       stateInv s) ∧
    (∀ s, handle_event data WS_EVENT_ALERT_TRIGGERED p = .ok (some s) →
       s.active_count = .int s.active_alerts.length ∧
       (stateInv s ↔ s.current_alert ≠ Option.none)) ∧
    (∀ s, handle_event data WS_EVENT_CURRENT_ALERT_CHANGED p = .ok (some s) →
       s.is_all_clear = dgetD p "is_all_clear" (.bool true) ∧
       s.active_count = dgetD p "active_count" (.int 0) ∧
       s.active_alerts = activeAlertsOf data ∧
       (stateInv s ↔
         (dgetD p "is_all_clear" (.bool true) = .bool true ↔
            s.current_alert = Option.none) ∧
         dgetD p "active_count" (.int 0) =
           .int (activeAlertsOf data).length)) ∧
    (∀ s, handle_event data "reconnected" p = .ok (some s) →
       ∀ sp, dgetD p "state" (.dict []) = .dict sp →
       s.is_all_clear = dgetD sp "is_all_clear" (.bool true) ∧
       s.active_count = dgetD sp "active_count" (.int 0) ∧
       (stateInv s ↔
         (dgetD sp "is_all_clear" (.bool true) = .bool true ↔
            s.current_alert = Option.none) ∧
         dgetD sp "active_count" (.int 0) =
           .int s.active_alerts.length)) := by
  refine ⟨?_, ?_, ?_, ?_, ?_⟩
  · intro s h
    have hh : Except.map some (handle_all_alerts_cleared data p) =
        .ok (some s) := h
    have hs := map_some_ok_elim hh
    have he : ({ is_all_clear := .bool true, current_alert := Option.none
                 active_count := .int 0, active_alerts := [] } :
               LightStackState) = s := Except.ok.inj hs
    subst he
    decide
  · intro s h
    have hh : Except.map some (handle_alert_cleared data p) =
        .ok (some s) := h
    obtain ⟨nc, ck, h1, h2, hs⟩ :=
      handle_alert_cleared_ok data p s (map_some_ok_elim hh)
    subst hs
    unfold stateInv
    refine ⟨?_, rfl⟩
    cases nc with
    | some a => simp
    | none => simp
  · intro s h
    have hh : Except.map some (handle_alert_triggered data p) =
        .ok (some s) := h
    obtain ⟨t, nc, h1, h2, hs⟩ :=
      handle_alert_triggered_ok data p s (map_some_ok_elim hh)
    subst hs
    refine ⟨rfl, ?_⟩
    unfold stateInv
    cases nc with
    | some a => simp
    | none => simp
  · intro s h
    have hh : Except.map some (handle_current_alert_changed data p) =
        .ok (some s) := h
    obtain ⟨ca, h1, hs⟩ :=
      handle_current_alert_changed_ok data p s (map_some_ok_elim hh)
    subst hs
    refine ⟨rfl, rfl, rfl, ?_⟩
    exact Iff.rfl
  · intro s h sp hsp
    have hh : (match dgetD p "state" (.dict []) with
        | .dict es => Except.map some (LightStackState.from_dict es)
        | _ => .error .attributeError) = .ok (some s) := h
    rw [hsp] at hh
    have hh' : Except.map some (LightStackState.from_dict sp) =
        .ok (some s) := hh
    obtain ⟨e1, e2, e3, e4⟩ :=
      state_from_dict_ok_fields sp s (map_some_ok_elim hh')
    refine ⟨e1, e2, ?_⟩
    unfold stateInv
    rw [e1, e2]

/-- C1 amended witness: the `all_alerts_cleared` clause at the empty
previous snapshot and payload. -/
theorem C1_amended_invariants_witness : stateInv emptySnapshot :=
  (C1_amended_invariants Option.none []).1 emptySnapshot (by decide)

/-!
## Upsert lemmas (C3)
-/

/-- Recursion equation for the upsert: replace at the head on a key
match, else recurse. -/
theorem upsertAlert_cons (a : LightStackAlert) (l : List LightStackAlert)
    (t : LightStackAlert) :
    upsertAlert (a :: l) t =
      if (a.alert_key == t.alert_key) = true then t :: l
      else a :: upsertAlert l t := by
  unfold upsertAlert
  rw [List.findIdx?_cons, List.findIdx?_succ]
  by_cases h : (a.alert_key == t.alert_key) = true
  · rw [if_pos h, if_pos h]
    rfl
  · rw [if_neg h, if_neg h]
    cases hf : l.findIdx? (fun x => x.alert_key == t.alert_key) with
    | some i => simp
    | none => simp

/-- The key list of an upsert: unchanged when the key was present, the
new key appended when it was not. -/
theorem upsertAlert_map_key (l : List LightStackAlert) (t : LightStackAlert) :
    (upsertAlert l t).map (fun a => a.alert_key) =
      if l.any (fun a => a.alert_key == t.alert_key) then
        l.map (fun a => a.alert_key)
      else l.map (fun a => a.alert_key) ++ [t.alert_key] := by
  induction l with
  | nil => simp [upsertAlert]
  | cons a l ih =>
    rw [upsertAlert_cons]
    by_cases h : (a.alert_key == t.alert_key) = true
    · have ht : a.alert_key = t.alert_key := by simpa using h
      simp [h, List.any_cons, ht]
    · by_cases ha : l.any (fun a => a.alert_key == t.alert_key) = true
      · simp [h, List.any_cons, ha, ih]
      · rw [Bool.not_eq_true] at ha
        simp [h, List.any_cons, ha, ih]

/-- Membership of keys gives a positive `any` on the key predicate. -/
theorem any_key_of_mem_keys (l : List LightStackAlert) (k : PyVal)
    (h : k ∈ l.map (fun a => a.alert_key)) :
    l.any (fun a => a.alert_key == k) = true := by
  rw [List.any_eq_true]
  rw [List.mem_map] at h
  obtain ⟨a, hm, he⟩ := h
  exact ⟨a, hm, by simp [he]⟩

/-- The upserted key is always present afterwards. -/
theorem mem_keys_upsert (l : List LightStackAlert) (t : LightStackAlert) :
    t.alert_key ∈ (upsertAlert l t).map (fun a => a.alert_key) := by
  rw [upsertAlert_map_key]
  by_cases h : l.any (fun a => a.alert_key == t.alert_key) = true
  · rw [if_pos h]
    rw [List.any_eq_true] at h
    obtain ⟨a, hm, he⟩ := h
    rw [List.mem_map]
    exact ⟨a, hm, by simpa using he⟩
  · rw [Bool.not_eq_true] at h
    rw [if_neg (by simp [h])]
    simp

/-- Upserting an already-present key does not grow the list. -/
theorem upsert_length_of_any (l : List LightStackAlert)
    (t : LightStackAlert)
    (h : l.any (fun a => a.alert_key == t.alert_key) = true) :
    (upsertAlert l t).length = l.length := by
  have hm := congrArg List.length (upsertAlert_map_key l t)
  rw [if_pos h] at hm
  simpa using hm

/-- The upsert preserves key uniqueness. -/
theorem upsert_keys_nodup (l : List LightStackAlert) (t : LightStackAlert)
    (h : (l.map (fun a => a.alert_key)).Nodup) :
    ((upsertAlert l t).map (fun a => a.alert_key)).Nodup := by
  rw [upsertAlert_map_key]
  by_cases ha : l.any (fun a => a.alert_key == t.alert_key) = true
  · rw [if_pos ha]
    exact h
  · rw [Bool.not_eq_true] at ha
    rw [if_neg (by simp [ha])]
    have hnm : t.alert_key ∉ l.map (fun a => a.alert_key) := by
      intro hm
      rw [any_key_of_mem_keys l t.alert_key hm] at ha
      exact Bool.noConfusion ha
    rw [List.nodup_append]
    exact ⟨h, List.nodup_singleton _, by
      intro x hx hx1
      rw [List.mem_singleton] at hx1
      subst hx1
      exact hnm hx⟩

/-- Unpacking `parseOptAlert` on a non-empty dict slot. -/
theorem parseOptAlert_dict (a1 : PyDict) (hne : a1.isEmpty = false)
    (t : Option LightStackAlert)
    (h : parseOptAlert (.dict a1) = .ok t) :
    ∃ t1, LightStackAlert.from_dict a1 = .ok t1 ∧ t = some t1 := by
  unfold parseOptAlert at h
  have ht : (PyVal.dict a1).truthy = true := by simp [PyVal.truthy, hne]
  rw [if_pos ht] at h
  have h' : Except.map some (LightStackAlert.from_dict a1) = .ok t := h
  cases hf : LightStackAlert.from_dict a1 with
  | ok t1 =>
    rw [hf] at h'
    exact ⟨t1, rfl, (Except.ok.inj h').symm⟩
  | error e =>
    rw [hf] at h'
    exact Except.noConfusion h'

/-!
## C3
-/

/-- C3: reducing two `alert_triggered` events that carry the same
`alert_key` (from a snapshot whose keys are unique, as the data model
requires) updates in place: the list does not grow between the first and
the second reduction, the key appears exactly once afterwards,
`active_count` equals the new length, `is_all_clear` is forced false,
and the current alert is replaced only when the payload signals
`current_changed`, else carried over. -/
theorem C3_upsert_law (prev : LightStackState) (p1 p2 : PyDict) (k : PyVal)
    (a1 a2 : PyDict) (s1 s2 : LightStackState)
    (hnodup : (prev.active_alerts.map (fun a => a.alert_key)).Nodup)
    (ha1 : dget p1 "alert" = .dict a1) (hne1 : a1.isEmpty = false)
    (hk1 : dgetD a1 "alert_key" (.str "") = k)
    (ha2 : dget p2 "alert" = .dict a2) (hne2 : a2.isEmpty = false)
    (hk2 : dgetD a2 "alert_key" (.str "") = k)
    (h1 : handle_event (some prev) WS_EVENT_ALERT_TRIGGERED p1 =
      .ok (some s1))
    (h2 : handle_event (some s1) WS_EVENT_ALERT_TRIGGERED p2 =
      .ok (some s2)) :
    s2.active_alerts.length = s1.active_alerts.length ∧
    (s2.active_alerts.map (fun a => a.alert_key)).count k = 1 ∧
    s2.active_count = .int s2.active_alerts.length ∧
    s2.is_all_clear = .bool false ∧
    ((dgetD p2 "current_changed" (.bool false)).truthy = false →
       s2.current_alert = s1.current_alert) ∧
    ((dgetD p2 "current_changed" (.bool false)).truthy = true →
       parseOptAlert (dget p2 "new_current") = .ok s2.current_alert) := by
  obtain ⟨t, nc, hpt, hpn, hs1⟩ :=
    handle_alert_triggered_ok (some prev) p1 s1 (map_some_ok_elim h1)
  rw [ha1] at hpt
  obtain ⟨t1, hft1, hteq⟩ := parseOptAlert_dict a1 hne1 t hpt
  subst hteq
  have hkt1 : t1.alert_key = k := by
    rw [(alert_from_dict_ok_fields a1 t1 hft1).1, hk1]
  subst hs1
  obtain ⟨t', nc', hpt', hpn', hs2⟩ :=
    handle_alert_triggered_ok _ p2 s2 (map_some_ok_elim h2)
  rw [ha2] at hpt'
  obtain ⟨t2, hft2, ht2eq⟩ := parseOptAlert_dict a2 hne2 t' hpt'
  subst ht2eq
  have hkt2 : t2.alert_key = k := by
    rw [(alert_from_dict_ok_fields a2 t2 hft2).1, hk2]
  subst hs2
  have hmem : k ∈ (upsertAlert prev.active_alerts t1).map
      (fun a => a.alert_key) := by
    rw [← hkt1]
    exact mem_keys_upsert _ t1
  have hany : (upsertAlert prev.active_alerts t1).any
      (fun a => a.alert_key == t2.alert_key) = true := by
    rw [hkt2]
    exact any_key_of_mem_keys _ k hmem
  have hlen : (upsertAlert (upsertAlert prev.active_alerts t1) t2).length =
      (upsertAlert prev.active_alerts t1).length :=
    upsert_length_of_any _ t2 hany
  have hnodup1 : ((upsertAlert prev.active_alerts t1).map
      (fun a => a.alert_key)).Nodup :=
    upsert_keys_nodup _ t1 hnodup
  have hnodup2 : ((upsertAlert (upsertAlert prev.active_alerts t1) t2).map
      (fun a => a.alert_key)).Nodup :=
    upsert_keys_nodup _ t2 hnodup1
  have hmem2 : k ∈ ((upsertAlert (upsertAlert prev.active_alerts t1) t2).map
      (fun a => a.alert_key)) := by
    rw [← hkt2]
    exact mem_keys_upsert _ t2
  have hcount : ((upsertAlert (upsertAlert prev.active_alerts t1) t2).map
      (fun a => a.alert_key)).count k = 1 :=
    List.count_eq_one_of_mem hnodup2 hmem2
  refine ⟨hlen, hcount, rfl, rfl, ?_, ?_⟩
  · intro hcc
    unfold parseNewCurrent at hpn'
    rw [hcc] at hpn'
    rw [if_neg Bool.false_ne_true] at hpn'
    exact (Except.ok.inj hpn').symm
  · intro hcc
    unfold parseNewCurrent at hpn'
    rw [hcc] at hpn'
    rw [if_pos rfl] at hpn'
    exact hpn'

/-- C3 witness: triggering `"x"` twice from the empty snapshot. -/
theorem C3_upsert_law_witness :
    ([mkAlert (.str "x")] : List LightStackAlert).length =
      ([mkAlert (.str "x")] : List LightStackAlert).length ∧
    (([mkAlert (.str "x")] : List LightStackAlert).map
      (fun a => a.alert_key)).count (.str "x") = 1 :=
  have h := C3_upsert_law emptySnapshot
    [("alert", .dict [("alert_key", .str "x")])]
    [("alert", .dict [("alert_key", .str "x")])]
    (.str "x") [("alert_key", .str "x")] [("alert_key", .str "x")]
    { is_all_clear := .bool false, current_alert := Option.none
      active_count := .int 1, active_alerts := [mkAlert (.str "x")] }
    { is_all_clear := .bool false, current_alert := Option.none
      active_count := .int 1, active_alerts := [mkAlert (.str "x")] }
    (by decide) (by decide) (by decide) (by decide) (by decide) (by decide)
    (by decide) (by decide) (by decide)
  ⟨h.1, h.2.1⟩

/-!
## Pending-map lemmas (C4, C5, C6)
-/

/-- Setting an arena slot that exists yields the new value. -/
theorem get?_set_self {α : Type} (l : List α) (i : Nat) (b : α) (x : α)
    (h : l.get? i = some x) : (l.set i b).get? i = some b := by
  induction l generalizing i with
  | nil => simp at h
  | cons a l ih =>
    cases i with
    | zero => rfl
    | succ n => simpa using ih n (by simpa using h)

/-- After `pop(k)` the key is no longer found. -/
theorem pyLookup_pyRemove_self (l : List (PyVal × Nat)) (k : PyVal) :
    pyLookup (pyRemove l k) k = Option.none := by
  induction l with
  | nil => rfl
  | cons e l ih =>
    unfold pyRemove at ih ⊢
    rw [List.filter_cons]
    by_cases he : (e.1 == k) = true
    · rw [if_neg (by simp [he])]
      exact ih
    · have he' : (e.1 == k) = false := by rwa [Bool.not_eq_true] at he
      rw [if_pos (by simp [he'])]
      unfold pyLookup
      rw [List.find?_cons_of_neg _ (by simp [he'])]
      exact ih

/-- `find?` keeps a head that satisfies the predicate. -/
theorem find?_cons_pos {α : Type} (p : α → Bool) (a : α) (l : List α)
    (h : p a = true) : (a :: l).find? p = some a := by
  simp [List.find?, h]

/-- `find?` skips a head that fails the predicate. -/
theorem find?_cons_neg {α : Type} (p : α → Bool) (a : α) (l : List α)
    (h : p a = false) : (a :: l).find? p = l.find? p := by
  simp [List.find?, h]

/-- Looking up the key just written by the replace branch of a dict
assignment. -/
theorem lookup_map_set (l : List (PyVal × Nat)) (k : PyVal) (v : Nat)
    (h : l.any (fun e => e.1 == k) = true) :
    pyLookup (l.map (fun e => if e.1 == k then (k, v) else e)) k =
      some v := by
  induction l with
  | nil => simp at h
  | cons e l ih =>
    by_cases he : (e.1 == k) = true
    · unfold pyLookup
      rw [List.map_cons, if_pos he,
        find?_cons_pos (fun e => e.1 == k) (k, v) _ (by simp)]
      rfl
    · have h' : l.any (fun e => e.1 == k) = true := by
        rw [List.any_cons] at h
        rcases Bool.or_eq_true_iff.mp h with h | h
        · exact absurd h he
        · exact h
      have he' : (e.1 == k) = false := by rwa [Bool.not_eq_true] at he
      unfold pyLookup at ih ⊢
      rw [List.map_cons, if_neg he,
        find?_cons_neg (fun e => e.1 == k) e _ he']
      exact ih h'

/-- Looking up the key just appended by the insert branch of a dict
assignment. -/
theorem lookup_append_single (l : List (PyVal × Nat)) (k : PyVal) (v : Nat)
    (h : l.any (fun e => e.1 == k) = false) :
    pyLookup (l ++ [(k, v)]) k = some v := by
  induction l with
  | nil =>
    unfold pyLookup
    rw [List.nil_append,
      find?_cons_pos (fun e => e.1 == k) (k, v) _ (by simp)]
    rfl
  | cons e l ih =>
    rw [List.any_cons, Bool.or_eq_false_iff] at h
    unfold pyLookup at ih ⊢
    rw [List.cons_append,
      find?_cons_neg (fun e => e.1 == k) e _ h.1]
    exact ih h.2

/-- Looking up a key right after the dict assignment that wrote it. -/
theorem pyLookup_pyDictSet_self (l : List (PyVal × Nat)) (k : PyVal)
    (v : Nat) : pyLookup (pyDictSet l k v) k = some v := by
  unfold pyDictSet
  by_cases h : l.any (fun e => e.1 == k) = true
  · rw [if_pos h]
    exact lookup_map_set l k v h
  · have h' : l.any (fun e => e.1 == k) = false := by
      rwa [Bool.not_eq_true] at h
    rw [if_neg h]
    exact lookup_append_single l k v h'

/-!
## C4
-/

/-- C4 counterexample: the matching `command_result` envelope resolves
the caller's future with the **whole `data` mapping** of the envelope,
not with the `result` mapping `{ok: true}` alone. -/
theorem C4_counterexample :
    ws_handle_message { pending := [(.str "abc", 0)], futures := [.pending] }
      [("type", .str "command_result"),
       ("data", .dict [("command_id", .str "abc"),
                       ("result", .dict [("ok", .bool true)])])] =
      .ok { pending := []
            futures := [.resolved (.dict
              [("command_id", .str "abc"),
               ("result", .dict [("ok", .bool true)])])] } ∧
    PyVal.dict [("command_id", .str "abc"),
                ("result", .dict [("ok", .bool true)])] ≠
      PyVal.dict [("ok", .bool true)] := by
  constructor
  · decide
  · decide

/-- C4 amended: an inbound `command_result` envelope whose truthy
`command_id` matches a pending entry holding an unresolved future pops
that entry and resolves the future with the envelope's full `data`
mapping (which carries the `result` mapping inside it); the caller-level
verbs then read `result` out of it. -/
theorem C4_amended_resolution (c : Correlator) (d : PyDict) (cid : PyVal)
    (i : Nat)
    (hcid : dget d "command_id" = cid) (ht : cid.truthy = true)
    (hl : pyLookup c.pending cid = some i)
    (hf : c.futures.get? i = some .pending) :
    ws_handle_message c
        [("type", .str "command_result"), ("data", .dict d)] =
      .ok { pending := pyRemove c.pending cid
            futures := c.futures.set i (.resolved (.dict d)) } ∧
    (c.futures.set i (.resolved (.dict d))).get? i =
      some (.resolved (.dict d)) ∧
    pyLookup (pyRemove c.pending cid) cid = Option.none := by
  refine ⟨?_, get?_set_self c.futures i _ _ hf, pyLookup_pyRemove_self _ _⟩
  have hmsg : ws_handle_message c
      [("type", .str "command_result"), ("data", .dict d)] =
      (if (dget d "command_id").truthy = true then
        match pyLookup c.pending (dget d "command_id") with
        | some i =>
          .ok { pending := pyRemove c.pending (dget d "command_id")
                futures := resolveFuture c.futures i (.dict d) }
        | Option.none => .ok c
      else .ok c) := rfl
  rw [hmsg, hcid, if_pos ht, hl]
  simp only [resolveFuture, hf]

/-- C4 amended witness at a one-entry correlator. -/
theorem C4_amended_resolution_witness :
    ws_handle_message { pending := [(.str "id1", 0)], futures := [.pending] }
        [("type", .str "command_result"),
         ("data", .dict [("command_id", .str "id1"),
                         ("result", .dict [("ok", .bool true)])])] =
      .ok { pending := pyRemove [(.str "id1", 0)] (.str "id1")
            futures := [FutureState.pending].set 0 (.resolved (.dict
              [("command_id", .str "id1"),
               ("result", .dict [("ok", .bool true)])])) } ∧
    ([FutureState.pending].set 0 (.resolved (.dict
        [("command_id", .str "id1"),
         ("result", .dict [("ok", .bool true)])]))).get? 0 =
      some (.resolved (.dict
        [("command_id", .str "id1"),
         ("result", .dict [("ok", .bool true)])])) ∧
    pyLookup (pyRemove [(.str "id1", 0)] (.str "id1")) (.str "id1") =
      Option.none :=
  C4_amended_resolution
    { pending := [(.str "id1", 0)], futures := [.pending] }
    [("command_id", .str "id1"), ("result", .dict [("ok", .bool true)])]
    (.str "id1") 0 (by decide) (by decide) (by decide) (by decide)

/-!
## C5
-/

/-- C5: `send_command` rejects immediately with a ConnectionError when
the link is down (and transmits nothing); when a result is awaited, the
fresh `PendingCommand` entry is registered in the pending map **at the
moment the frame is transmitted**; and a timeout yields a `TIMEOUT`
CommandError with the pending entry discarded. -/
theorem C5_send_command (c : Correlator) (command_type command_id : String)
    (ao : AwaitOutcome) :
    send_command c false command_type command_id true ao =
      { result := .error (.connectionError "Not connected to LightStack")
        pendingAtSend := Option.none
        pendingAfter := c.pending, futuresAfter := c.futures } ∧
    send_command c false command_type command_id false ao =
      { result := .error (.connectionError "Not connected to LightStack")
        pendingAtSend := Option.none
        pendingAfter := c.pending, futuresAfter := c.futures } ∧
    (send_command c true command_type command_id true ao).pendingAtSend =
      some (pyDictSet c.pending (.str command_id) c.futures.length) ∧
    pyLookup (pyDictSet c.pending (.str command_id) c.futures.length)
      (.str command_id) = some c.futures.length ∧
    (send_command c true command_type command_id true .timeout).result =
      .error (.commandError "TIMEOUT"
        ("Command " ++ command_type ++ " timed out")) ∧
    pyLookup
      (send_command c true command_type command_id true .timeout).pendingAfter
      (.str command_id) = Option.none := by
  refine ⟨rfl, rfl, ?_, pyLookup_pyDictSet_self _ _ _, rfl, ?_⟩
  · cases ao <;> rfl
  · exact pyLookup_pyRemove_self _ _

/-!
## C6
-/

/-- `_handle_message` on a `command_result`/`error` envelope whose
(truthy or falsy) id is not in the pending map leaves the correlator
untouched and does not raise. -/
theorem ws_handle_message_not_pending (c : Correlator) (k : String)
    (d : PyDict) (cid : PyVal)
    (hk : k = WS_EVENT_COMMAND_RESULT ∨ k = WS_EVENT_ERROR)
    (hd : dget d "command_id" = cid)
    (hnp : pyLookup c.pending cid = Option.none) :
    ws_handle_message c [("type", .str k), ("data", .dict d)] = .ok c := by
  rcases hk with rfl | rfl
  · have hm : ws_handle_message c
        [("type", .str WS_EVENT_COMMAND_RESULT), ("data", .dict d)] =
        (if (dget d "command_id").truthy = true then
          match pyLookup c.pending (dget d "command_id") with
          | some i =>
            .ok { pending := pyRemove c.pending (dget d "command_id")
                  futures := resolveFuture c.futures i (.dict d) }
          | Option.none => .ok c
        else .ok c) := rfl
    rw [hm, hd, hnp]
    split <;> rfl
  · have hm : ws_handle_message c
        [("type", .str WS_EVENT_ERROR), ("data", .dict d)] =
        (if (dget d "command_id").truthy = true then
          match pyLookup c.pending (dget d "command_id") with
          | some i =>
            .ok { pending := pyRemove c.pending (dget d "command_id")
                  futures := failFuture c.futures i
                    (dgetD d "code" (.str "UNKNOWN"))
                    (dgetD d "message" (.str "Unknown error")) }
          | Option.none => .ok c
        else .ok c) := rfl
    rw [hm, hd, hnp]
    split <;> rfl

/-- Handling a `command_result`/`error` envelope removes its truthy id
from the pending map (or the id was never pending). -/
theorem ws_handle_message_clears_id (c c1 : Correlator) (k : String)
    (d : PyDict) (cid : PyVal)
    (hk : k = WS_EVENT_COMMAND_RESULT ∨ k = WS_EVENT_ERROR)
    (hd : dget d "command_id" = cid) (hct : cid.truthy = true)
    (h : ws_handle_message c [("type", .str k), ("data", .dict d)] =
      .ok c1) :
    pyLookup c1.pending cid = Option.none := by
  rcases hk with rfl | rfl
  · have hm : ws_handle_message c
        [("type", .str WS_EVENT_COMMAND_RESULT), ("data", .dict d)] =
        (if (dget d "command_id").truthy = true then
          match pyLookup c.pending (dget d "command_id") with
          | some i =>
            .ok { pending := pyRemove c.pending (dget d "command_id")
                  futures := resolveFuture c.futures i (.dict d) }
          | Option.none => .ok c
        else .ok c) := rfl
    rw [hm, hd, if_pos hct] at h
    cases hpl : pyLookup c.pending cid with
    | some i =>
      rw [hpl] at h
      have he : ({ pending := pyRemove c.pending cid
                   futures := resolveFuture c.futures i (.dict d) } :
                 Correlator) = c1 := Except.ok.inj h
      subst he
      exact pyLookup_pyRemove_self _ _
    | none =>
      rw [hpl] at h
      have he : c = c1 := Except.ok.inj h
      subst he
      exact hpl
  · have hm : ws_handle_message c
        [("type", .str WS_EVENT_ERROR), ("data", .dict d)] =
        (if (dget d "command_id").truthy = true then
          match pyLookup c.pending (dget d "command_id") with
          | some i =>
            .ok { pending := pyRemove c.pending (dget d "command_id")
                  futures := failFuture c.futures i
                    (dgetD d "code" (.str "UNKNOWN"))
                    (dgetD d "message" (.str "Unknown error")) }
          | Option.none => .ok c
        else .ok c) := rfl
    rw [hm, hd, if_pos hct] at h
    cases hpl : pyLookup c.pending cid with
    | some i =>
      rw [hpl] at h
      have he : ({ pending := pyRemove c.pending cid
                   futures := failFuture c.futures i
                     (dgetD d "code" (.str "UNKNOWN"))
                     (dgetD d "message" (.str "Unknown error")) } :
                 Correlator) = c1 := Except.ok.inj h
      subst he
      exact pyLookup_pyRemove_self _ _
    | none =>
      rw [hpl] at h
      have he : c = c1 := Except.ok.inj h
      subst he
      exact hpl

/-- C6: resolving or failing a pending id is exactly-once — after any
`command_result`/`error` envelope for a truthy id has been handled, the
id is no longer pending, and a second `command_result`/`error` envelope
for the same id leaves the pending map and every future (including the
already-resolved one) unchanged, and does not raise. -/
theorem C6_exactly_once (c c1 : Correlator) (cid : PyVal) (d1 d2 : PyDict)
    (k1 k2 : String)
    (hk1 : k1 = WS_EVENT_COMMAND_RESULT ∨ k1 = WS_EVENT_ERROR)
    (hk2 : k2 = WS_EVENT_COMMAND_RESULT ∨ k2 = WS_EVENT_ERROR)
    (hcid : cid.truthy = true)
    (hd1 : dget d1 "command_id" = cid) (hd2 : dget d2 "command_id" = cid)
    (h1 : ws_handle_message c [("type", .str k1), ("data", .dict d1)] =
      .ok c1) :
    pyLookup c1.pending cid = Option.none ∧
    ws_handle_message c1 [("type", .str k2), ("data", .dict d2)] =
      .ok c1 := by
  have hgone := ws_handle_message_clears_id c c1 k1 d1 cid hk1 hd1 hcid h1
  exact ⟨hgone, ws_handle_message_not_pending c1 k2 d2 cid hk2 hd2 hgone⟩

/-- C6 witness: resolve `"abc"` once, then the duplicate envelope is a
no-op. -/
theorem C6_exactly_once_witness :
    pyLookup ({ pending := [], futures := [.resolved (.dict
        [("command_id", .str "abc")])] } : Correlator).pending
      (.str "abc") = Option.none ∧
    ws_handle_message { pending := [], futures := [.resolved (.dict
        [("command_id", .str "abc")])] }
      [("type", .str "command_result"),
       ("data", .dict [("command_id", .str "abc")])] =
      .ok { pending := [], futures := [.resolved (.dict
        [("command_id", .str "abc")])] } :=
  C6_exactly_once
    { pending := [(.str "abc", 0)], futures := [.pending] }
    { pending := [], futures := [.resolved (.dict
        [("command_id", .str "abc")])] }
    (.str "abc") [("command_id", .str "abc")] [("command_id", .str "abc")]
    "command_result" "command_result" (Or.inl rfl) (Or.inl rfl)
    (by decide) (by decide) (by decide) (by decide)

/-!
## C7
-/

/-- C7: while the session runs, the coordinator's reconnection
supervisor (`_maintain_connection`, a `while True:` loop whose body is
wrapped in `try/except Exception`) never stops retrying: under an
environment in which every wake-up observes a dead link and every
reconnect attempt fails, the snapshot stays at its last known value and
the number of reconnect attempts equals the number of elapsed polling
intervals — unbounded. -/
theorem C7_unbounded_retry (env : Nat → SupervisorObs)
    (data : Option LightStackState)
    (hfail : ∀ i, (env i).connected = false ∧
       (env i).reconnect_result = Option.none) :
    (∀ n, maintain_run env n data = data) ∧
    (∀ n, attemptsMade env n = n) ∧
    (∀ N, ∃ n, N ≤ attemptsMade env n) := by
  have hstep : ∀ i d, maintain_step (env i) d = d := by
    intro i d
    unfold maintain_step
    rw [(hfail i).1, (hfail i).2]
    rfl
  have hrun : ∀ n, maintain_run env n data = data := by
    intro n
    induction n with
    | zero => rfl
    | succ m ih =>
      show maintain_run env m (maintain_step (env m) data) = data
      rw [hstep m data]
      exact ih
  have hatt : ∀ n, attemptsMade env n = n := by
    intro n
    unfold attemptsMade
    have hall : ∀ i ∈ List.range n, (!(env i).connected) = true := by
      intro i hi
      rw [(hfail i).1]
      rfl
    rw [List.countP_eq_length.mpr hall, List.length_range]
  refine ⟨hrun, hatt, ?_⟩
  intro N
  refine ⟨N, ?_⟩
  rw [hatt]

/-- C7 witness under the always-failing environment. -/
theorem C7_unbounded_retry_witness :
    maintain_run (fun _ => ⟨false, Option.none⟩) 3 Option.none =
      Option.none ∧
    attemptsMade (fun _ => ⟨false, Option.none⟩) 3 = 3 ∧
    ∃ n, 5 ≤ attemptsMade (fun _ => ⟨false, Option.none⟩) n :=
  have h := C7_unbounded_retry (fun _ => ⟨false, Option.none⟩) Option.none
    (fun _ => ⟨rfl, rfl⟩)
  ⟨h.1 3, h.2.1 3, h.2.2 5⟩
